import Mathlib

set_option maxRecDepth 10000

/-!
Shallow embedding of the `git-commit-message` Python package
(`src/git_commit_message/_llm.py`, `_gpt.py`, `_llm_common.py`).

Modelling conventions:
* The process environment is an explicit argument `Env := String -> Option String`
  (`os.environ.get k` becomes `env k`); the embedded functions never mutate it.
* Python truthiness of optional strings (`if s:`) is `pyTruthyStr`; `a or b`
  chains over strings are `pyOrStr`/`pyOrStrD`; integer truthiness (`n or 72`)
  is `pyOrInt`.
* `str.strip()` is `pyStrip` (drop whitespace characters from both ends).
* The OpenAI Chat Completions call is an explicit argument
  `backend : ChatRequest -> ChatResponse`; `resp.choices[0].message.content`
  is modelled as the `content` field of `ChatResponse`.  Observable side
  effects (client construction, the single network request) are recorded in an
  `Event` trace returned next to the result, and raised `RuntimeError`s become
  `Except.error` values carrying a `GenError` tag whose `pyMessage` is the
  Python error string.
-/

/-- Python whitespace set used by `str.strip()` (ASCII part). -/
def pyIsSpace (c : Char) : Bool :=
  c = ' ' || c = '\t' || c = '\n' || c = '\r' || c = '\x0b' || c = '\x0c'

/-- Python `s.strip()`: drop whitespace from both ends. -/
def pyStrip (s : String) : String :=
  ⟨List.rdropWhile pyIsSpace (List.dropWhile pyIsSpace s.data)⟩

/-- Python `s.lower()` (ASCII case mapping, as `Char.toLower`). -/
def pyLower (s : String) : String :=
  ⟨s.data.map Char.toLower⟩

/-- Python truthiness of an `Optional[str]` value. -/
def pyTruthyStr : Option String → Bool
  | none => false
  | some s => if s = "" then false else true

/-- Python `a or b` on `Optional[str]` values. -/
def pyOrStr : Option String → Option String → Option String
  | some s, b => if s = "" then b else some s
  | none, b => b

/-- Python `a or d` where the fallback `d` is a plain string. -/
def pyOrStrD : Option String → String → String
  | some s, d => if s = "" then d else s
  | none, d => d

/-- Python `n or d` on `Optional[int]` (`0` and `None` are falsy). -/
def pyOrInt : Option Int → Int → Int
  | some n, d => if n = 0 then d else n
  | none, d => d

/-- Boolean prefix test on character lists. -/
def isPrefixB : List Char → List Char → Bool
  | [], _ => true
  | _ :: _, [] => false
  | a :: as, b :: bs => a == b && isPrefixB as bs

/-- Boolean substring test: does `pat` occur contiguously in `l`? -/
def containsSubList : List Char → List Char → Bool
  | [], pat => isPrefixB pat []
  | a :: t, pat => isPrefixB pat (a :: t) || containsSubList t pat

/-- Python `pat in s` substring containment on strings. -/
def strContains (s pat : String) : Bool :=
  containsSubList s.data pat.data

/-- Process environment: `env k` models `os.environ.get(k)`. -/
abbrev Env : Type := String → Option String

/-- The `Provider` literal type of `_llm.py` (`Literal["openai", "google"]`). -/
inductive Provider where
  | openai
  | google
deriving DecidableEq

namespace LlmCommon

/-- `_llm_common._DEFAULT_LANGUAGE`. -/
def _DEFAULT_LANGUAGE : String := "en-GB"

def slA : String :=
  "You are an expert Git commit message generator. Always use \x27"

def slB : String :=
  "\x27 spelling and style. Return a single-line imperative subject only (<= "

def slC : String :=
  " chars). Do not include a body, bullet points, or any rationale. Do not include any line" ++
  " breaks. Consider the user-provided auxiliary context if present. Return only the commit" ++
  " message text (no code fences or prefixes like \x27Commit message:\x27)."

def stA : String :=
  "You are an expert Git commit message generator. Always use \x27"

def stB : String :=
  "\x27 spelling and style. The subject line is mandatory: you MUST start the output with t" ++
  "he subject as the very first non-empty line, in imperative mood, and keep it <= "

def stC : String :=
  " chars. Insert exactly one blank line after the subject. Never start with bullets, headi" ++
  "ngs, labels, or any other text. Then include a body in this format.\n\nExample format (d" ++
  "o not include the --- lines in the output):\n\n---\n\n<Subject line>\n\n- <detail 1>\n- " ++
  "<detail 2>\n- <detail N>\n\n<Rationale label translated into the target language>: <1-2 " ++
  "concise sentences explaining the intent and why>\n\n---\n\nGuidelines:\n- The first non-" ++
  "empty line MUST be the subject line; include exactly one blank line after it.\n- Never p" ++
  "lace bullets, headings, or labels before the subject line.\n- Use \x27-\x27 bullets; kee" ++
  "p each bullet short (<= 1 line).\n- Prefer imperative mood verbs (Add, Fix, Update, Remo" ++
  "ve, Refactor, Document, etc.).\n- Focus on what changed and why; avoid copying diff hunk" ++
  "s verbatim.\n- The only allowed label is the equivalent of \x27Rationale:\x27 translated" ++
  " into the target language; do not add other headings or prefaces.\n- Do not include the " ++
  "\x27---\x27 delimiter lines, code fences, or any surrounding labels like \x27Commit mess" ++
  "age:\x27.\n- Do not copy or reuse any example text verbatim; produce original content ba" ++
  "sed on the provided diff and context.\n- If few details are necessary, include at least " ++
  "one bullet summarising the key change.\n- If you cannot provide any body content, still " ++
  "output the subject line; the subject line must never be omitted.\n- Consider the user-pr" ++
  "ovided auxiliary context if present.\nReturn only the commit message text in the above f" ++
  "ormat (no code fences or extra labels)."

/-- `_llm_common.build_system_prompt`: the shared instruction prompt.  The two
f-strings of the source are the concatenations below (their constant segments
are the `sl?`/`st?` literals, with `language` and `max_len` interpolated). -/
def build_system_prompt (single_line : Bool) (subject_max : Option Int) (language : String) : String :=
  let max_len : Int := pyOrInt subject_max 72
  if single_line then
    slA ++ language ++ slB ++ toString max_len ++ slC
  else
    stA ++ language ++ stB ++ toString max_len ++ stC

/-- `_llm_common.resolve_language`. -/
def resolve_language (env : Env) (language : Option String) : String :=
  pyOrStrD (pyOrStr language (env "GIT_COMMIT_MESSAGE_LANGUAGE")) _DEFAULT_LANGUAGE

/-- `_llm_common.build_user_texts`. -/
def build_user_texts (diff : String) (hint : Option String) : Option String × String :=
  let hint_content : Option String :=
    match hint with
    | some h => if h = "" then none else some ("# Auxiliary context (user-provided)\n" ++ h)
    | none => none
  let diff_content : String := "# Changes (diff)\n" ++ diff
  (hint_content, diff_content)

/-- `_llm_common.build_combined_prompt`. -/
def build_combined_prompt (diff : String) (hint : Option String) : String :=
  let (hint_content, diff_content) := build_user_texts diff hint
  let parts : List String := List.filterMap id [hint_content, some diff_content]
  String.intercalate "\n\n" parts

end LlmCommon

namespace Gpt

/-- `_gpt._DEFAULT_MODEL`. -/
def _DEFAULT_MODEL : String := "gpt-5-mini"

/-- `_gpt._DEFAULT_LANGUAGE`. -/
def _DEFAULT_LANGUAGE : String := "en-GB"

def slA : String :=
  "You are an expert Git commit message generator. Always use \x27"

def slB : String :=
  "\x27 spelling and style. Return a single-line imperative subject only (<= "

def slC : String :=
  " chars). Do not include a body, bullet points, or any rationale. Do not include any line" ++
  " breaks. Consider the user-provided auxiliary context if present. Return only the commit" ++
  " message text (no code fences or prefixes like \x27Commit message:\x27)."

def stA : String :=
  "You are an expert Git commit message generator. Always use \x27"

def stB : String :=
  "\x27 spelling and style. The subject line is mandatory: you MUST start the output with t" ++
  "he subject as the very first non-empty line, in imperative mood, and keep it <= "

def stC : String :=
  " chars. Insert exactly one blank line after the subject. Never start with bullets, headi" ++
  "ngs, labels, or any other text. Then include a body in this format.\n\nExample format (d" ++
  "o not include the --- lines in the output):\n\n---\n\n<Subject line>\n\n- <detail 1>\n- " ++
  "<detail 2>\n- <detail N>\n\n<Rationale label translated into the target language>: <1-2 " ++
  "concise sentences explaining the intent and why>\n\n---\n\nGuidelines:\n- The first non-" ++
  "empty line MUST be the subject line; include exactly one blank line after it.\n- Never p" ++
  "lace bullets, headings, or labels before the subject line.\n- Use \x27-\x27 bullets; kee" ++
  "p each bullet short (<= 1 line).\n- Prefer imperative mood verbs (Add, Fix, Update, Remo" ++
  "ve, Refactor, Document, etc.).\n- Focus on what changed and why; avoid copying diff hunk" ++
  "s verbatim.\n- The only allowed label is the equivalent of \x27Rationale:\x27 translated" ++
  " into the target language; do not add other headings or prefaces.\n- Do not include the " ++
  "\x27---\x27 delimiter lines, code fences, or any surrounding labels like \x27Commit mess" ++
  "age:\x27.\n- Do not copy or reuse any example text verbatim; produce original content ba" ++
  "sed on the provided diff and context.\n- If few details are necessary, include at least " ++
  "one bullet summarising the key change.\n- If you cannot provide any body content, still " ++
  "output the subject line; the subject line must never be omitted.\n- Consider the user-pr" ++
  "ovided auxiliary context if present.\nReturn only the commit message text in the above f" ++
  "ormat (no code fences or extra labels)."

/-- `_gpt._build_system_prompt` (the adapter-local duplicate of the shared
prompt builder; transcribed from `_gpt.py` lines 13-56). -/
def _build_system_prompt (single_line : Bool) (subject_max : Option Int) (language : String) : String :=
  let max_len : Int := pyOrInt subject_max 72
  if single_line then
    slA ++ language ++ slB ++ toString max_len ++ slC
  else
    stA ++ language ++ stB ++ toString max_len ++ stC

/-- A chat message dictionary `{"role": ..., "content": ...}`. -/
structure Msg where
  role : String
  content : String
deriving DecidableEq

/-- `_gpt._system_message`. -/
def _system_message (single_line : Bool) (subject_max : Option Int) (language : String) : Msg :=
  ⟨"system", _build_system_prompt single_line subject_max language⟩

/-- `_gpt._resolve_model`. -/
def _resolve_model (env : Env) (model : Option String) : String :=
  pyOrStrD (pyOrStr (pyOrStr model (env "GIT_COMMIT_MESSAGE_MODEL")) (env "OPENAI_MODEL")) _DEFAULT_MODEL

/-- `_gpt._resolve_language`. -/
def _resolve_language (env : Env) (language : Option String) : String :=
  pyOrStrD (pyOrStr language (env "GIT_COMMIT_MESSAGE_LANGUAGE")) _DEFAULT_LANGUAGE

/-- `_gpt._build_user_messages`: returns the combined debug string and the
user message list. -/
def _build_user_messages (diff : String) (hint : Option String) : String × List Msg :=
  let hint_content : Option String :=
    match hint with
    | some h => if h = "" then none else some ("# Auxiliary context (user-provided)\n" ++ h)
    | none => none
  let diff_content : String := "# Changes (diff)\n" ++ diff
  let messages : List Msg :=
    (match hint_content with
     | some hc => if hc = "" then [] else [⟨"user", hc⟩]
     | none => []) ++ [⟨"user", diff_content⟩]
  let combined_prompt : String :=
    String.intercalate "\n\n" (List.filterMap id [hint_content, some diff_content])
  (combined_prompt, messages)

/-- Token usage attributes of a Chat Completions reply (each attribute may be
absent, modelled as `none`, matching `getattr(usage, ..., None)`). -/
structure Usage where
  prompt_tokens : Option Int
  completion_tokens : Option Int
  total_tokens : Option Int
deriving DecidableEq

/-- The parts of a Chat Completions reply that the adapter reads:
`resp.choices[0].message.content`, `resp.id`, `resp.usage`. -/
structure ChatResponse where
  content : Option String
  id : Option String
  usage : Option Usage
deriving DecidableEq

/-- The outbound request: model name plus role-tagged messages. -/
structure ChatRequest where
  model : String
  messages : List Msg
deriving DecidableEq

/-- Observable side effects of one adapter invocation. -/
inductive Event where
  | clientCreated
  | requestSent (req : ChatRequest)
deriving DecidableEq

/-- The `RuntimeError`s raised by the adapter. -/
inductive GenError where
  | missingApiKey
  | emptyMessage
deriving DecidableEq

/-- The Python error message attached to each `RuntimeError`. -/
def GenError.pyMessage : GenError → String
  | .missingApiKey => "The OPENAI_API_KEY environment variable is required."
  | .emptyMessage => "An empty commit message was generated."

/-- `_gpt.CommitMessageResult`. -/
structure CommitMessageResult where
  message : String
  model : String
  prompt : String
  response_text : String
  response_id : Option String
  prompt_tokens : Option Int
  completion_tokens : Option Int
  total_tokens : Option Int
deriving DecidableEq

/-- The single request both generation functions send: resolved model, then the
system message followed by the user messages. -/
def request_of (env : Env) (diff : String) (hint : Option String) (model : Option String)
    (single_line : Bool) (subject_max : Option Int) (language : Option String) : ChatRequest :=
  ⟨_resolve_model env model,
   _system_message single_line subject_max (_resolve_language env language) ::
     (_build_user_messages diff hint).2⟩

/-- `_gpt.generate_commit_message` (lines 168-203): resolve configuration,
require `OPENAI_API_KEY`, send one request, strip the reply text, reject an
empty result. -/
def generate_commit_message (env : Env) (backend : ChatRequest → ChatResponse)
    (diff : String) (hint : Option String) (model : Option String) (single_line : Bool)
    (subject_max : Option Int) (language : Option String) :
    Except GenError String × List Event :=
  if pyTruthyStr (env "OPENAI_API_KEY") = false then
    (Except.error GenError.missingApiKey, [])
  else
    let req := request_of env diff hint model single_line subject_max language
    let resp := backend req
    let text := pyStrip (resp.content.getD "")
    if text = "" then
      (Except.error GenError.emptyMessage, [Event.clientCreated, Event.requestSent req])
    else
      (Except.ok text, [Event.clientCreated, Event.requestSent req])

/-- `_gpt.generate_commit_message_with_info` (lines 206-265). -/
def generate_commit_message_with_info (env : Env) (backend : ChatRequest → ChatResponse)
    (diff : String) (hint : Option String) (model : Option String) (single_line : Bool)
    (subject_max : Option Int) (language : Option String) :
    Except GenError CommitMessageResult × List Event :=
  if pyTruthyStr (env "OPENAI_API_KEY") = false then
    (Except.error GenError.missingApiKey, [])
  else
    let chosen_model := _resolve_model env model
    let req := request_of env diff hint model single_line subject_max language
    let resp := backend req
    let combined_prompt := (_build_user_messages diff hint).1
    let response_text := pyStrip (resp.content.getD "")
    if response_text = "" then
      (Except.error GenError.emptyMessage, [Event.clientCreated, Event.requestSent req])
    else
      let usage_fields : Option Int × Option Int × Option Int :=
        match resp.usage with
        | some u => (u.prompt_tokens, u.completion_tokens, u.total_tokens)
        | none => (none, none, none)
      (Except.ok
        { message := response_text
          model := chosen_model
          prompt := combined_prompt
          response_text := response_text
          response_id := resp.id
          prompt_tokens := usage_fields.1
          completion_tokens := usage_fields.2.1
          total_tokens := usage_fields.2.2 },
       [Event.clientCreated, Event.requestSent req])

end Gpt

namespace Llm

/-- `_llm._ENV_PROVIDER`. -/
def _ENV_PROVIDER : String := "GIT_COMMIT_MESSAGE_PROVIDER"

/-- `_llm._infer_provider_from_model`: `google` iff the model name is truthy
and contains "gemini" after lowercasing. -/
def _infer_provider_from_model (model : Option String) : Provider :=
  match model with
  | some m =>
    if m = "" then Provider.openai
    else if strContains (pyLower m) "gemini" then Provider.google
    else Provider.openai
  | none => Provider.openai

/-- `_llm._resolve_provider`: environment override first, then the explicit
argument, then the model-name heuristic. -/
def _resolve_provider (env : Env) (explicit : Option Provider) (model : Option String) : Provider :=
  if env _ENV_PROVIDER = some "openai" then Provider.openai
  else if env _ENV_PROVIDER = some "google" then Provider.google
  else
    match explicit with
    | some p => p
    | none => _infer_provider_from_model model

end Llm


/-- First non-empty string among a list of optional values, else the default:
the resolution order the specification describes for model names. -/
def firstNonEmptyStr : List (Option String) → String → String
  | [], d => d
  | none :: rest, d => firstNonEmptyStr rest d
  | some s :: rest, d => if s = "" then firstNonEmptyStr rest d else s

/-- The empty environment. -/
def envEmpty : Env := fun _ => none

/-- A concrete environment with only the provider override set to "google". -/
def envProviderGoogle : Env := fun k =>
  if k = "GIT_COMMIT_MESSAGE_PROVIDER" then some "google" else none

/-- A second environment agreeing with `envProviderGoogle` on the provider
override but differing on every other key. -/
def envProviderGoogleNoisy : Env := fun k =>
  if k = "GIT_COMMIT_MESSAGE_PROVIDER" then some "google" else some "unrelated"

/-- A concrete environment with only `OPENAI_API_KEY` set. -/
def envKeyOnly : Env := fun k =>
  if k = "OPENAI_API_KEY" then some "sk-test" else none

/-- A backend stub returning the same reply to every request. -/
def constBackend (r : Gpt.ChatResponse) : Gpt.ChatRequest → Gpt.ChatResponse := fun _ => r

/-- A backend stub with text but no usage data. -/
def backendNoUsage : Gpt.ChatRequest → Gpt.ChatResponse :=
  constBackend ⟨some "Add foo constant", some "resp-1", none⟩

/-- The record `generate_commit_message_with_info` produces for `backendNoUsage`
under `envKeyOnly` with diff "diff" and no other arguments. -/
def resNoUsage : Gpt.CommitMessageResult :=
  ⟨"Add foo constant", "gpt-5-mini", "# Changes (diff)\ndiff", "Add foo constant",
   some "resp-1", none, none, none⟩

/-! ### Helper lemmas -/

theorem isPrefixB_append (pat rest : List Char) : isPrefixB pat (pat ++ rest) = true := by
  induction pat with
  | nil => rfl
  | cons a as ih => simp [isPrefixB, ih]

theorem containsSubList_nil_pat (l : List Char) : containsSubList l [] = true := by
  cases l <;> simp [containsSubList, isPrefixB]

theorem containsSubList_append_left (l1 l2 pat : List Char)
    (h : containsSubList l2 pat = true) : containsSubList (l1 ++ l2) pat = true := by
  induction l1 with
  | nil => simpa using h
  | cons a t ih => simp [containsSubList, Bool.or_eq_true]; right; exact (by simpa using ih)

theorem containsSubList_self_append (pat rest : List Char) :
    containsSubList (pat ++ rest) pat = true := by
  cases pat with
  | nil => simpa using containsSubList_nil_pat rest
  | cons a as =>
    simp only [containsSubList, Bool.or_eq_true]
    exact Or.inl (isPrefixB_append (a :: as) rest)

theorem strContains_middle (x mid c : String) : strContains (x ++ mid ++ c) mid = true := by
  unfold strContains
  simp only [String.data_append, List.append_assoc]
  exact containsSubList_append_left _ _ _ (containsSubList_self_append _ _)

theorem strContains_append_right (s t pat : String) (h : strContains t pat = true) :
    strContains (s ++ t) pat = true := by
  unfold strContains at h ⊢
  rw [String.data_append]
  exact containsSubList_append_left _ _ _ h

theorem pyStrip_idem (s : String) : pyStrip (pyStrip s) = pyStrip s := by
  have key : ∀ d : List Char,
      List.rdropWhile pyIsSpace (List.dropWhile pyIsSpace
        (List.rdropWhile pyIsSpace (List.dropWhile pyIsSpace d))) =
      List.rdropWhile pyIsSpace (List.dropWhile pyIsSpace d) := by
    intro d
    have hdw : List.dropWhile pyIsSpace
        (List.rdropWhile pyIsSpace (List.dropWhile pyIsSpace d)) =
        List.rdropWhile pyIsSpace (List.dropWhile pyIsSpace d) := by
      rw [List.dropWhile_eq_self_iff]
      intro hl
      have hpre : List.rdropWhile pyIsSpace (List.dropWhile pyIsSpace d) <+:
          List.dropWhile pyIsSpace d := List.rdropWhile_prefix _ _
      have hget := List.IsPrefix.getElem hpre hl
      have hmlen : 0 < (List.dropWhile pyIsSpace d).length :=
        lt_of_lt_of_le hl (List.IsPrefix.length_le hpre)
      have hmne : List.dropWhile pyIsSpace d ≠ [] := List.ne_nil_of_length_pos hmlen
      have hhead := List.head_dropWhile_not pyIsSpace d hmne
      rw [List.head_eq_getElem] at hhead
      simp only [List.get_eq_getElem, hget, hhead]
      simp
    rw [hdw, List.rdropWhile_idempotent]
  unfold pyStrip
  exact congrArg String.mk (key s.data)

/-! ### Further helper lemmas -/

theorem string_append_ne_empty_left (a b : String) (ha : a ≠ "") : a ++ b ≠ "" := by
  intro h
  apply ha
  have hd := congrArg String.data h
  rw [String.data_append] at hd
  have h2 := List.append_eq_nil.mp hd
  exact String.ext h2.1

theorem pyOrStrD_assoc (a b : Option String) (d : String) :
    pyOrStrD (pyOrStr a b) d = pyOrStrD a (pyOrStrD b d) := by
  rcases a with _ | s
  · rfl
  · by_cases h : s = "" <;> simp [pyOrStr, pyOrStrD, h]

theorem firstNonEmptyStr_cons (a : Option String) (rest : List (Option String)) (d : String) :
    firstNonEmptyStr (a :: rest) d = pyOrStrD a (firstNonEmptyStr rest d) := by
  cases a <;> rfl

/-! ### Claim theorems -/

/-- C1: `_resolve_provider` returns the environment override when it is exactly
"openai" or "google" (taking precedence over everything, including a
conflicting explicit argument); otherwise the explicit argument when present;
otherwise "google" iff the model name is non-empty and contains the
case-insensitive substring "gemini", and "openai" in every other case
(including model unset). -/
theorem resolve_provider_cases (env : Env) (explicit : Option Provider) (model : Option String) :
    (env "GIT_COMMIT_MESSAGE_PROVIDER" = some "openai" →
      Llm._resolve_provider env explicit model = Provider.openai) ∧
    (env "GIT_COMMIT_MESSAGE_PROVIDER" = some "google" →
      Llm._resolve_provider env explicit model = Provider.google) ∧
    (env "GIT_COMMIT_MESSAGE_PROVIDER" ≠ some "openai" →
      env "GIT_COMMIT_MESSAGE_PROVIDER" ≠ some "google" →
      (∀ p, explicit = some p → Llm._resolve_provider env explicit model = p) ∧
      (explicit = none →
        Llm._resolve_provider env explicit model =
          if pyTruthyStr model && strContains (pyLower (model.getD "")) "gemini" then
            Provider.google
          else Provider.openai)) := by
  refine ⟨fun h => ?_, fun h => ?_, fun h1 h2 => ⟨fun p hp => ?_, fun hn => ?_⟩⟩
  · simp [Llm._resolve_provider, Llm._ENV_PROVIDER, h]
  · simp [Llm._resolve_provider, Llm._ENV_PROVIDER, h]
  · simp only [Llm._resolve_provider, Llm._ENV_PROVIDER]
    rw [if_neg h1, if_neg h2, hp]
  · subst hn
    simp only [Llm._resolve_provider, Llm._ENV_PROVIDER]
    rw [if_neg h1, if_neg h2]
    rcases model with _ | m
    · simp [Llm._infer_provider_from_model, pyTruthyStr]
    · by_cases hm : m = ""
      · simp [Llm._infer_provider_from_model, pyTruthyStr, hm]
      · cases hc : strContains (pyLower m) "gemini" <;>
          simp [Llm._infer_provider_from_model, pyTruthyStr, hm, hc]

/-- Witness for C1 at concrete inputs: the environment override "google" beats
the explicit "openai" argument, and an explicit-less call with a Gemini model
name resolves to google. -/
theorem resolve_provider_cases_witness :
    Llm._resolve_provider envProviderGoogle (some Provider.openai) none = Provider.google ∧
    Llm._resolve_provider envEmpty none (some "Gemini-2.0-flash") = Provider.google := by
  constructor
  · exact (resolve_provider_cases envProviderGoogle (some Provider.openai) none).2.1 rfl
  · have h := ((resolve_provider_cases envEmpty none
      (some "Gemini-2.0-flash")).2.2 (by decide) (by decide)).2 rfl
    rw [h]
    decide

/-- C9: provider resolution is pure and deterministic: it reads only the
GIT_COMMIT_MESSAGE_PROVIDER entry of the (read-only) environment argument, so
two calls with identical arguments and environments agreeing on that entry
return the same provider; the environment is an immutable input of the
embedding, so it is unchanged by construction. -/
theorem resolve_provider_deterministic (env1 env2 : Env) (explicit : Option Provider)
    (model : Option String)
    (h : env1 "GIT_COMMIT_MESSAGE_PROVIDER" = env2 "GIT_COMMIT_MESSAGE_PROVIDER") :
    Llm._resolve_provider env1 explicit model = Llm._resolve_provider env2 explicit model := by
  simp only [Llm._resolve_provider, Llm._ENV_PROVIDER, h]

/-- Witness for C9: two environments agreeing on the provider override (but
nowhere else) resolve identically. -/
theorem resolve_provider_deterministic_witness :
    Llm._resolve_provider envProviderGoogle (some Provider.openai) (some "gpt-4o") =
    Llm._resolve_provider envProviderGoogleNoisy (some Provider.openai) (some "gpt-4o") :=
  resolve_provider_deterministic envProviderGoogle envProviderGoogleNoisy
    (some Provider.openai) (some "gpt-4o") (by decide)

/-- C8: `_resolve_model` returns the first non-empty value among the explicit
model argument, GIT_COMMIT_MESSAGE_MODEL, OPENAI_MODEL, then the hard default
"gpt-5-mini". -/
theorem resolve_model_first_nonempty (env : Env) (model : Option String) :
    Gpt._resolve_model env model =
      firstNonEmptyStr [model, env "GIT_COMMIT_MESSAGE_MODEL", env "OPENAI_MODEL"]
        "gpt-5-mini" := by
  simp only [Gpt._resolve_model, Gpt._DEFAULT_MODEL, pyOrStrD_assoc, firstNonEmptyStr_cons]
  rfl

/-- C3: `_build_user_messages` yields exactly the diff item when the hint is
empty or unset, exactly the hint item then the diff item when the hint is
non-empty, and its combined audit string is those same wrapped parts joined by
one blank line. -/
theorem build_user_messages_spec (diff : String) (hint : Option String) :
    (pyTruthyStr hint = false →
      (Gpt._build_user_messages diff hint).2 =
        [⟨"user", "# Changes (diff)\n" ++ diff⟩]) ∧
    (∀ h, hint = some h → h ≠ "" →
      (Gpt._build_user_messages diff hint).2 =
        [⟨"user", "# Auxiliary context (user-provided)\n" ++ h⟩,
         ⟨"user", "# Changes (diff)\n" ++ diff⟩]) ∧
    (Gpt._build_user_messages diff hint).1 =
      String.intercalate "\n\n" ((Gpt._build_user_messages diff hint).2.map Gpt.Msg.content) := by
  rcases hint with _ | h
  · exact ⟨fun _ => rfl, fun h2 hs hne => Option.noConfusion hs, rfl⟩
  · by_cases hh : h = ""
    · subst hh
      refine ⟨fun _ => rfl, ?_, rfl⟩
      intro h2 hs hne
      injection hs with hs2
      exact absurd hs2.symm hne
    · have hne2 : "# Auxiliary context (user-provided)\n" ++ h ≠ "" :=
        string_append_ne_empty_left _ _ (by decide)
      refine ⟨fun ht => ?_, fun h2 hs hne => ?_, ?_⟩
      · simp [pyTruthyStr, hh] at ht
      · injection hs with hs2
        subst hs2
        simp [Gpt._build_user_messages, hh, hne2]
      · simp [Gpt._build_user_messages, hh, hne2]

/-- Witness for C3: with a non-empty hint the message list is the hint item
followed by the diff item. -/
theorem build_user_messages_spec_witness :
    (Gpt._build_user_messages "diff --git a/x b/x" (some "fixes flaky test")).2 =
      [⟨"user", "# Auxiliary context (user-provided)\nfixes flaky test"⟩,
       ⟨"user", "# Changes (diff)\ndiff --git a/x b/x"⟩] := by
  have h := (build_user_messages_spec "diff --git a/x b/x"
    (some "fixes flaky test")).2.1 "fixes flaky test" rfl (by decide)
  rw [h]
  decide

/-- C10: the OpenAI adapter duplicates of the prompt builders are equivalent to
the shared ones: `_build_system_prompt` agrees with `build_system_prompt` on
every input, and the combined debug string of `_build_user_messages` equals
`build_combined_prompt`. -/
theorem gpt_builders_match_shared :
    (∀ (single_line : Bool) (subject_max : Option Int) (language : String),
      Gpt._build_system_prompt single_line subject_max language =
        LlmCommon.build_system_prompt single_line subject_max language) ∧
    (∀ (diff : String) (hint : Option String),
      (Gpt._build_user_messages diff hint).1 = LlmCommon.build_combined_prompt diff hint) := by
  constructor
  · intro sl sm lang
    cases sl <;> rfl
  · intro diff hint
    rcases hint with _ | h
    · rfl
    · by_cases hh : h = "" <;>
        simp [Gpt._build_user_messages, LlmCommon.build_combined_prompt,
          LlmCommon.build_user_texts, hh]

/-- C5: when OPENAI_API_KEY is unset or empty, both generation functions fail
with the configuration error ("The OPENAI_API_KEY environment variable is
required.") before any backend interaction: the event trace is empty, so no
client is created and no request is sent, whatever the backend would answer. -/
theorem missing_api_key_fails_early (env : Env) (backend : Gpt.ChatRequest → Gpt.ChatResponse)
    (diff : String) (hint model : Option String) (single_line : Bool)
    (subject_max : Option Int) (language : Option String)
    (h : pyTruthyStr (env "OPENAI_API_KEY") = false) :
    Gpt.generate_commit_message env backend diff hint model single_line subject_max language =
      (Except.error Gpt.GenError.missingApiKey, []) ∧
    Gpt.generate_commit_message_with_info env backend diff hint model single_line
        subject_max language =
      (Except.error Gpt.GenError.missingApiKey, []) ∧
    Gpt.GenError.pyMessage Gpt.GenError.missingApiKey =
      "The OPENAI_API_KEY environment variable is required." := by
  refine ⟨?_, ?_, rfl⟩ <;>
    simp [Gpt.generate_commit_message, Gpt.generate_commit_message_with_info, h]

/-- Witness for C5: with an empty environment the call fails with the
configuration error and an empty event trace. -/
theorem missing_api_key_fails_early_witness :
    Gpt.generate_commit_message envEmpty backendNoUsage "diff" none none false none none =
      (Except.error Gpt.GenError.missingApiKey, []) :=
  (missing_api_key_fails_early envEmpty backendNoUsage "diff" none none false none none rfl).1

/-- C2: a backend reply whose aggregate text is empty after stripping makes
both generation functions fail with the "An empty commit message was
generated." error rather than return a result, and the message of every
returned result is non-empty after stripping. -/
theorem empty_generation_fails (env : Env) (backend : Gpt.ChatRequest → Gpt.ChatResponse)
    (diff : String) (hint model : Option String) (single_line : Bool)
    (subject_max : Option Int) (language : Option String) :
    (pyTruthyStr (env "OPENAI_API_KEY") = true →
      pyStrip ((backend (Gpt.request_of env diff hint model single_line subject_max
        language)).content.getD "") = "" →
      (Gpt.generate_commit_message env backend diff hint model single_line subject_max
          language).1 = Except.error Gpt.GenError.emptyMessage ∧
      (Gpt.generate_commit_message_with_info env backend diff hint model single_line
          subject_max language).1 = Except.error Gpt.GenError.emptyMessage) ∧
    (∀ s, (Gpt.generate_commit_message env backend diff hint model single_line subject_max
        language).1 = Except.ok s → pyStrip s ≠ "") ∧
    (∀ r, (Gpt.generate_commit_message_with_info env backend diff hint model single_line
        subject_max language).1 = Except.ok r → pyStrip r.message ≠ "") ∧
    Gpt.GenError.pyMessage Gpt.GenError.emptyMessage =
      "An empty commit message was generated." := by
  refine ⟨fun hk he => ?_, fun s hs => ?_, fun r hr => ?_, rfl⟩
  · constructor <;>
      simp [Gpt.generate_commit_message, Gpt.generate_commit_message_with_info, hk, he]
  · by_cases hk : pyTruthyStr (env "OPENAI_API_KEY") = false
    · simp [Gpt.generate_commit_message, hk] at hs
    · by_cases he : pyStrip ((backend (Gpt.request_of env diff hint model single_line
          subject_max language)).content.getD "") = ""
      · simp [Gpt.generate_commit_message, hk, he] at hs
      · simp [Gpt.generate_commit_message, hk, he] at hs
        rw [← hs, pyStrip_idem]
        exact he
  · by_cases hk : pyTruthyStr (env "OPENAI_API_KEY") = false
    · simp [Gpt.generate_commit_message_with_info, hk] at hr
    · by_cases he : pyStrip ((backend (Gpt.request_of env diff hint model single_line
          subject_max language)).content.getD "") = ""
      · simp [Gpt.generate_commit_message_with_info, hk, he] at hr
      · simp [Gpt.generate_commit_message_with_info, hk, he] at hr
        rw [← hr, pyStrip_idem]
        exact he

/-- Witness for C2: a whitespace-only backend reply yields the empty-generation
error. -/
theorem empty_generation_fails_witness :
    (Gpt.generate_commit_message envKeyOnly (constBackend ⟨some "  \n ", none, none⟩)
        "diff" none none false none none).1 = Except.error Gpt.GenError.emptyMessage :=
  ((empty_generation_fails envKeyOnly (constBackend ⟨some "  \n ", none, none⟩)
      "diff" none none false none none).1 (by decide) (by decide)).1

/-- C6: when the backend reply omits usage data, the returned record has
prompt, completion and total token counts all unset (none), not zero; when
usage is present each field is copied from the corresponding usage attribute. -/
theorem usage_fields_propagated (env : Env) (backend : Gpt.ChatRequest → Gpt.ChatResponse)
    (diff : String) (hint model : Option String) (single_line : Bool)
    (subject_max : Option Int) (language : Option String) :
    ∀ r, (Gpt.generate_commit_message_with_info env backend diff hint model single_line
        subject_max language).1 = Except.ok r →
      ((backend (Gpt.request_of env diff hint model single_line subject_max
          language)).usage = none →
        r.prompt_tokens = none ∧ r.completion_tokens = none ∧ r.total_tokens = none) ∧
      (∀ u, (backend (Gpt.request_of env diff hint model single_line subject_max
          language)).usage = some u →
        r.prompt_tokens = u.prompt_tokens ∧ r.completion_tokens = u.completion_tokens ∧
          r.total_tokens = u.total_tokens) := by
  intro r hr
  by_cases hk : pyTruthyStr (env "OPENAI_API_KEY") = false
  · simp [Gpt.generate_commit_message_with_info, hk] at hr
  · by_cases he : pyStrip ((backend (Gpt.request_of env diff hint model single_line
        subject_max language)).content.getD "") = ""
    · simp [Gpt.generate_commit_message_with_info, hk, he] at hr
    · simp [Gpt.generate_commit_message_with_info, hk, he] at hr
      constructor
      · intro hu
        rw [← hr]
        simp [hu]
      · intro u hu
        rw [← hr]
        simp [hu]

/-- Witness for C6: a reply without usage yields a record whose three token
fields are all none. -/
theorem usage_fields_propagated_witness :
    (Gpt.generate_commit_message_with_info envKeyOnly backendNoUsage
        "diff" none none false none none).1 = Except.ok resNoUsage ∧
    resNoUsage.prompt_tokens = none ∧ resNoUsage.completion_tokens = none ∧
      resNoUsage.total_tokens = none := by
  have h := (usage_fields_propagated envKeyOnly backendNoUsage
    "diff" none none false none none resNoUsage rfl).1 rfl
  exact ⟨rfl, h⟩

/-- Counterexample to C4 as stated: Python treats `subject_max=0` as falsy, so
at subjectMax = 0 the builder substitutes 72 and the single-line instructions
do not contain the numeral "0" anywhere. -/
theorem subject_zero_not_in_prompt_cx :
    LlmCommon.build_system_prompt true (some 0) "en-GB" =
      LlmCommon.build_system_prompt true none "en-GB" ∧
    strContains (LlmCommon.build_system_prompt true (some 0) "en-GB") "0" = false := by
  exact ⟨rfl, by decide⟩

/-- C4 as amended: for every nonzero subjectMax the instructions of both
builders contain that exact numeric limit, in single-line and structured mode
alike; when subjectMax is unset — or 0, which Python's `or` treats as unset —
the instructions contain 72. -/
theorem subject_limit_in_prompt (single_line : Bool) (n : Int) (language : String) :
    (n ≠ 0 → strContains (LlmCommon.build_system_prompt single_line (some n) language)
        (toString n) = true) ∧
    strContains (LlmCommon.build_system_prompt single_line none language) "72" = true ∧
    strContains (LlmCommon.build_system_prompt single_line (some 0) language) "72" = true ∧
    (n ≠ 0 → strContains (Gpt._build_system_prompt single_line (some n) language)
        (toString n) = true) ∧
    strContains (Gpt._build_system_prompt single_line none language) "72" = true ∧
    strContains (Gpt._build_system_prompt single_line (some 0) language) "72" = true := by
  refine ⟨fun hn => ?_, ?_, ?_, fun hn => ?_, ?_, ?_⟩
  · have hx : pyOrInt (some n) 72 = n := if_neg hn
    cases single_line
    · show strContains
        (LlmCommon.stA ++ language ++ LlmCommon.stB ++ toString (pyOrInt (some n) 72) ++
          LlmCommon.stC) (toString n) = true
      rw [hx]
      exact strContains_middle _ _ _
    · show strContains
        (LlmCommon.slA ++ language ++ LlmCommon.slB ++ toString (pyOrInt (some n) 72) ++
          LlmCommon.slC) (toString n) = true
      rw [hx]
      exact strContains_middle _ _ _
  · cases single_line
    · show strContains
        (LlmCommon.stA ++ language ++ LlmCommon.stB ++ "72" ++ LlmCommon.stC) "72" = true
      exact strContains_middle _ _ _
    · show strContains
        (LlmCommon.slA ++ language ++ LlmCommon.slB ++ "72" ++ LlmCommon.slC) "72" = true
      exact strContains_middle _ _ _
  · cases single_line
    · show strContains
        (LlmCommon.stA ++ language ++ LlmCommon.stB ++ "72" ++ LlmCommon.stC) "72" = true
      exact strContains_middle _ _ _
    · show strContains
        (LlmCommon.slA ++ language ++ LlmCommon.slB ++ "72" ++ LlmCommon.slC) "72" = true
      exact strContains_middle _ _ _
  · have hx : pyOrInt (some n) 72 = n := if_neg hn
    cases single_line
    · show strContains
        (Gpt.stA ++ language ++ Gpt.stB ++ toString (pyOrInt (some n) 72) ++ Gpt.stC)
        (toString n) = true
      rw [hx]
      exact strContains_middle _ _ _
    · show strContains
        (Gpt.slA ++ language ++ Gpt.slB ++ toString (pyOrInt (some n) 72) ++ Gpt.slC)
        (toString n) = true
      rw [hx]
      exact strContains_middle _ _ _
  · cases single_line
    · show strContains (Gpt.stA ++ language ++ Gpt.stB ++ "72" ++ Gpt.stC) "72" = true
      exact strContains_middle _ _ _
    · show strContains (Gpt.slA ++ language ++ Gpt.slB ++ "72" ++ Gpt.slC) "72" = true
      exact strContains_middle _ _ _
  · cases single_line
    · show strContains (Gpt.stA ++ language ++ Gpt.stB ++ "72" ++ Gpt.stC) "72" = true
      exact strContains_middle _ _ _
    · show strContains (Gpt.slA ++ language ++ Gpt.slB ++ "72" ++ Gpt.slC) "72" = true
      exact strContains_middle _ _ _

/-- Witness for the amended C4 at a concrete nonzero limit. -/
theorem subject_limit_in_prompt_witness :
    strContains (LlmCommon.build_system_prompt true (some 50) "en-GB")
      (toString (50 : Int)) = true :=
  (subject_limit_in_prompt true 50 "en-GB").1 (by decide)

/-- Counterexample to C7 as stated: the single-line instructions do mention
bullet points and a rationale (in the sentence prohibiting them), so they are
not free of those mentions. -/
theorem single_line_mentions_bullets_cx :
    strContains (LlmCommon.build_system_prompt true none "en-GB") "bullet" = true ∧
    strContains (LlmCommon.build_system_prompt true none "en-GB") "rationale" = true := by
  exact ⟨by decide, by decide⟩

/-- C7 as amended: single-line instructions mention bullets and rationale only
inside the prohibition sentence and (at the default configuration) contain
neither the bullet-usage directive nor the literal rationale label, while
structured instructions always contain both, for every subjectMax and
language. -/
theorem prompt_mode_mentions (subject_max : Option Int) (language : String) :
    strContains (LlmCommon.build_system_prompt true subject_max language)
      "Do not include a body, bullet points, or any rationale" = true ∧
    strContains (LlmCommon.build_system_prompt false subject_max language)
      "Use \x27-\x27 bullets" = true ∧
    strContains (LlmCommon.build_system_prompt false subject_max language)
      "Rationale:" = true ∧
    strContains (LlmCommon.build_system_prompt true none "en-GB") "Rationale:" = false ∧
    strContains (LlmCommon.build_system_prompt true none "en-GB")
      "Use \x27-\x27 bullets" = false := by
  refine ⟨?_, ?_, ?_, by decide, by decide⟩
  · show strContains
      (LlmCommon.slA ++ language ++ LlmCommon.slB ++ toString (pyOrInt subject_max 72) ++
        LlmCommon.slC) _ = true
    exact strContains_append_right _ _ _ (by decide)
  · show strContains
      (LlmCommon.stA ++ language ++ LlmCommon.stB ++ toString (pyOrInt subject_max 72) ++
        LlmCommon.stC) _ = true
    exact strContains_append_right _ _ _ (by decide)
  · show strContains
      (LlmCommon.stA ++ language ++ LlmCommon.stB ++ toString (pyOrInt subject_max 72) ++
        LlmCommon.stC) _ = true
    exact strContains_append_right _ _ _ (by decide)
